import Mathlib

/-!
Verification of the snake-draft module of this repository.

The draft logic lives in src/lib/sports-api.ts (entities Draft, DraftPick,
DraftTimer, DraftSettings and the operation groups drafts, draftPicks,
draftTimers, draftSettings, draftHelpers) backed by the SQLite schema of
migrations/0007_drafts.sql.  The definitions below are a shallow embedding of
that code:

* the database is a state value (`DB`) holding one draft row, its picks, its
  timer row and its settings row; every operation is a pure function from the
  state (plus the current wall-clock time `now`, standing for the code's
  `Date.now() / 1000` / SQL `strftime` reads) to the new state;
* `INSERT OR REPLACE` statements are modelled faithfully: they replace the
  whole timer row, unmentioned columns falling back to the schema defaults
  (`NULL` for `current_pick_deadline`, `last_reminded_at` and `paused_at`,
  `86400` for `paused_remaining_seconds`);
* the `UNIQUE(draft_id, round, pick_number)` index of `draft_picks` is
  modelled on the insert: a conflicting insert aborts the call with the
  outcome `thrown` (in the code the prepared statement throws and the
  exception propagates out of `makePick`);
* JavaScript truthiness tests on nullable numbers (`timer.current_pick_deadline`,
  `timer.paused_remaining_seconds`) are modelled by `truthyInt`; the
  `array[i] || null` read of the draft order is modelled by `jsStringOrNull`;
* timestamps and second counts are modelled as `Int`; row columns that the
  draft logic never reads or writes (ids, `created_at`, `updated_at`,
  `picked_at`, `time_taken`, `break_between_rounds_seconds`) are omitted.
-/

/-- Draft status column: pending, in_progress, paused, completed. -/
inductive DraftStatus
  | pending
  | in_progress
  | paused
  | completed
deriving DecidableEq, Repr

/-- A row of the `drafts` table (columns the draft logic touches). -/
structure Draft where
  status : DraftStatus
  current_pick : Nat
  current_round : Nat
  total_rounds : Nat
  total_picks : Nat
  draft_order : List String
  started_at : Option Int
  completed_at : Option Int
deriving DecidableEq, Repr

/-- A row of the `draft_picks` table (columns the draft logic touches). -/
structure DraftPick where
  round : Nat
  pick_number : Nat
  user_id : String
  option_id : String
deriving DecidableEq, Repr

/-- A row of the `draft_timers` table. -/
structure DraftTimer where
  current_pick_deadline : Option Int
  last_reminded_at : Option Int
  paused_at : Option Int
  paused_remaining_seconds : Option Int
deriving DecidableEq, Repr

/-- A row of the `draft_settings` table (columns relevant to the claims). -/
structure DraftSettings where
  pick_time_seconds : Int
  reminder_minutes : Int
  enable_auto_skip : Int
  auto_skip_after_seconds : Int
deriving DecidableEq, Repr

/-- The persistent state seen by the draft module: one draft row (`none`
when the requested draft id has no row), its picks, its timer row and its
settings row. -/
structure DB where
  draft : Option Draft
  picks : List DraftPick
  timer : Option DraftTimer
  settings : Option DraftSettings
deriving DecidableEq, Repr

/-- JavaScript truthiness of a nullable number: `null` and `0` are falsy. -/
def truthyInt : Option Int → Bool
  | none => false
  | some x => x != 0

/-- JavaScript `value || null` on a nullable string: `undefined` (absent
index) and the empty string both collapse to `null`. -/
def jsStringOrNull : Option String → Option String
  | none => none
  | some s => if s = "" then none else some s

/-- Typed counterparts of the error strings `makePick` / `skipPick` return. -/
inductive PickError
  | notFound
  | invalidState
  | notYourTurn
  | resourceAlreadyTaken
  | noCurrentPicker
deriving DecidableEq, Repr

/-- The literal error strings of src/lib/sports-api.ts for each typed error. -/
def errorMessage : PickError → String
  | PickError.notFound => "Draft not found"
  | PickError.invalidState => "Draft is not in progress"
  | PickError.notYourTurn => "Not your turn to pick"
  | PickError.resourceAlreadyTaken => "Option already selected"
  | PickError.noCurrentPicker => "No current picker"

/-- Outcome of a pick attempt: success with the created pick, a typed error
returned as `{ success: false, error }`, or an exception thrown by the
database layer (unique-index violation on the pick insert). -/
inductive PickOutcome
  | ok (pick : DraftPick)
  | err (e : PickError)
  | thrown
deriving DecidableEq, Repr

/-- Argument of `draftTimers.update`: a partial timer row, `none` standing
for an omitted (`undefined`) field.  No caller passes SQL `NULL` explicitly,
so `none` always means "field not mentioned in the statement". -/
structure TimerPatch where
  current_pick_deadline : Option Int
  last_reminded_at : Option Int
  paused_at : Option Int
  paused_remaining_seconds : Option Int
deriving DecidableEq, Repr

namespace draftTimers

/-- Embedding of `draftTimers.update`: collects the provided fields; with no
field provided it is a no-op, otherwise it runs
`INSERT OR REPLACE INTO draft_timers (draft_id, fields...)`, which replaces
the whole row — columns not in the statement take their schema defaults
(`NULL`, except `paused_remaining_seconds DEFAULT 86400`). -/
def update (db : DB) (data : TimerPatch) : DB :=
  if data.current_pick_deadline = none ∧ data.last_reminded_at = none ∧
      data.paused_at = none ∧ data.paused_remaining_seconds = none then
    db
  else
    { db with
      timer := some
        { current_pick_deadline := data.current_pick_deadline
          last_reminded_at := data.last_reminded_at
          paused_at := data.paused_at
          paused_remaining_seconds :=
            match data.paused_remaining_seconds with
            | some v => some v
            | none => some 86400 } }

end draftTimers

namespace drafts

/-- Embedding of `drafts.setPickDeadline`:
`INSERT OR REPLACE INTO draft_timers (draft_id, current_pick_deadline)`
replaces the whole timer row, the unmentioned columns taking their schema
defaults. -/
def setPickDeadline (db : DB) (deadline : Int) : DB :=
  { db with
    timer := some
      { current_pick_deadline := some deadline
        last_reminded_at := none
        paused_at := none
        paused_remaining_seconds := some 86400 } }

/-- Embedding of `drafts.start`: unconditionally sets the status to
in_progress and stamps started_at, then — when the draft row exists — sets
the initial deadline to now + 86400 (the hard-coded 24 hours). -/
def start (db : DB) (now : Int) : DB :=
  match db.draft with
  | none => db
  | some d =>
    let db1 := { db with
      draft := some { d with status := DraftStatus.in_progress, started_at := some now } }
    setPickDeadline db1 (now + 86400)

/-- Embedding of `drafts.pause`: sets the status to paused, then — when the
timer row exists and its deadline is truthy — stores
remaining = max(0, deadline − now) together with the pause timestamp via
`draftTimers.update` (whose REPLACE also clears the active deadline). -/
def pause (db : DB) (now : Int) : DB :=
  let db1 := { db with
    draft := db.draft.map (fun d : Draft => { d with status := DraftStatus.paused }) }
  match db1.timer with
  | none => db1
  | some timer =>
    if truthyInt timer.current_pick_deadline then
      let remaining := max 0 (timer.current_pick_deadline.getD 0 - now)
      draftTimers.update db1
        { current_pick_deadline := none
          last_reminded_at := none
          paused_at := some now
          paused_remaining_seconds := some remaining }
    else db1

/-- Embedding of `drafts.resume`: when the timer row exists and its stored
remaining seconds are truthy, sets deadline = now + remaining and then calls
`draftTimers.update` with both pause fields `undefined` (which makes that
call a no-op); otherwise sets deadline = now + 86400.  Finally sets the
status to in_progress. -/
def resume (db : DB) (now : Int) : DB :=
  let db1 :=
    match db.timer with
    | some timer =>
      if truthyInt timer.paused_remaining_seconds then
        let db2 := setPickDeadline db (now + timer.paused_remaining_seconds.getD 0)
        draftTimers.update db2
          { current_pick_deadline := none
            last_reminded_at := none
            paused_at := none
            paused_remaining_seconds := none }
      else setPickDeadline db (now + 86400)
    | none => setPickDeadline db (now + 86400)
  { db1 with
    draft := db1.draft.map (fun d : Draft => { d with status := DraftStatus.in_progress }) }

/-- Embedding of `drafts.complete`: sets the status to completed and stamps
completed_at. -/
def complete (db : DB) (now : Int) : DB :=
  { db with
    draft := db.draft.map
      (fun d : Draft => { d with status := DraftStatus.completed, completed_at := some now }) }

/-- Embedding of `drafts.getCurrentPicker` (the turn resolver): none unless
the draft is in_progress with picks remaining; otherwise the stored
current_round decides the direction — odd rounds index forward by
current_pick mod n, even rounds reversed — and the order entry is read with
the JavaScript `|| null` coercion. -/
def getCurrentPicker (draft : Draft) : Option String :=
  if draft.status ≠ DraftStatus.in_progress ∨ draft.current_pick ≥ draft.total_picks then
    none
  else
    let n := draft.draft_order.length
    let userIndex :=
      if draft.current_round % 2 = 1 then
        draft.current_pick % n
      else
        n - 1 - draft.current_pick % n
    jsStringOrNull draft.draft_order[userIndex]?

/-- The pick row `makePick` inserts: the snapshot draft's current_round and
the 1-based overall number current_pick + 1. -/
def mkPick (draft : Draft) (userId optionId : String) : DraftPick :=
  { round := draft.current_round
    pick_number := draft.current_pick + 1
    user_id := userId
    option_id := optionId }

/-- The validation phase of `makePick`, in source order, against the draft
row read at the start of the call: status must be in_progress, the actor
must be the current picker, and no pick of this draft may already use the
requested option id (the query does not exempt the \x27skipped\x27 sentinel). -/
def makePickChecks (draft : Draft) (db : DB) (userId optionId : String) : Option PickError :=
  if draft.status ≠ DraftStatus.in_progress then some PickError.invalidState
  else if getCurrentPicker draft ≠ some userId then some PickError.notYourTurn
  else if db.picks.any (fun p => p.option_id == optionId) then some PickError.resourceAlreadyTaken
  else none

/-- The mutation phase of `makePick`, computed from the snapshot draft row
`draft` read at the start of the call: insert the pick (aborting with
`thrown` when the `UNIQUE(draft_id, round, pick_number)` index rejects it),
set current_pick / current_round on the live draft row to values derived
from the snapshot, then either complete the draft or set the next deadline
to now + 86400. -/
def makePickCommit (draft : Draft) (userId optionId : String) (now : Int) (db : DB) :
    PickOutcome × DB :=
  let pick := mkPick draft userId optionId
  if db.picks.any (fun q => q.round == pick.round && q.pick_number == pick.pick_number) then
    (PickOutcome.thrown, db)
  else
    let db1 := { db with picks := db.picks ++ [pick] }
    let newPick := draft.current_pick + 1
    let newRound := newPick / draft.draft_order.length + 1
    let db2 := { db1 with
      draft := db1.draft.map
        (fun c : Draft => { c with current_pick := newPick, current_round := newRound }) }
    let db3 :=
      if newPick ≥ draft.total_picks then complete db2 now
      else setPickDeadline db2 (now + 86400)
    (PickOutcome.ok pick, db3)

/-- Embedding of `drafts.makePick`: read the draft row (NotFound when
absent), run the validations in source order, and on success run the
mutation phase. -/
def makePick (db : DB) (userId optionId : String) (now : Int) : PickOutcome × DB :=
  match db.draft with
  | none => (PickOutcome.err PickError.notFound, db)
  | some draft =>
    match makePickChecks draft db userId optionId with
    | some e => (PickOutcome.err e, db)
    | none => makePickCommit draft userId optionId now db

/-- Embedding of `drafts.skipPick`: read the draft (NotFound when absent),
resolve the current picker (error when there is none), then reuse
`makePick` with the reserved option id \x27skipped\x27. -/
def skipPick (db : DB) (now : Int) : PickOutcome × DB :=
  match db.draft with
  | none => (PickOutcome.err PickError.notFound, db)
  | some draft =>
    match getCurrentPicker draft with
    | none => (PickOutcome.err PickError.noCurrentPicker, db)
    | some currentPicker => makePick db currentPicker "skipped" now

end drafts

/-- Modelled from the spec: a start-draft endpoint is not among the provided
source files (only the create, pick and status routes are), so its guards
are taken from the spec's words — `startDraft(draftId)` requires status
pending, and `start` requires at least 2 participants (`InvalidState`
otherwise, the spec's taxonomy for a wrong status or starting with fewer
than 2 participants).  When the guards pass it invokes the module's
`drafts.start`. -/
def startDraft (db : DB) (now : Int) : Option PickError × DB :=
  match db.draft with
  | none => (some PickError.notFound, db)
  | some d =>
    if d.status ≠ DraftStatus.pending then (some PickError.invalidState, db)
    else if d.draft_order.length < 2 then (some PickError.invalidState, db)
    else (none, drafts.start db now)

namespace draftHelpers

/-- Embedding of `draftHelpers.generateSnakeOrder`: copies the user list and
sorts it with a comparator that ignores its arguments and returns a random
number.  The randomness is modelled by quantifying over an arbitrary
comparison function `cmp`; the `rounds` argument is unused, as in the
source. -/
def generateSnakeOrder (userIds : List String) (rounds : Nat)
    (cmp : String → String → Bool) : List String :=
  userIds.mergeSort cmp

end draftHelpers

/-- The turn resolver exactly as the claim states it: none unless
in_progress with picks remaining; otherwise, with n the participant count
and round = current_pick / n + 1, odd rounds read draft_order at
current_pick mod n and even rounds at n − 1 − current_pick mod n.  This
definition follows the claim's words and is compared with the source's
`drafts.getCurrentPicker`. -/
def whoseTurnSpec (draft : Draft) : Option String :=
  if draft.status ≠ DraftStatus.in_progress ∨ draft.current_pick ≥ draft.total_picks then
    none
  else
    let n := draft.draft_order.length
    let round := draft.current_pick / n + 1
    if round % 2 = 1 then
      draft.draft_order[draft.current_pick % n]?
    else
      draft.draft_order[n - 1 - draft.current_pick % n]?

/-- Denotation of one interleaving of two concurrent `makePick` calls for
the same draft.  Each call is the sequence of atomic database statements
read-draft, read-picks (validation), insert-pick, update-draft,
complete-or-set-deadline.  The schedule modelled here lets both calls run
their reads and validations against the same initial state and then runs
the two mutation phases back to back (first A, then B), each computing from
the draft row it read — a legal interleaving because neither call mutates
anything before its validation phase ends. -/
def racedMakePick (db : DB) (userId oA oB : String) (now : Int) :
    (PickOutcome × PickOutcome) × DB :=
  match db.draft with
  | none => ((PickOutcome.err PickError.notFound, PickOutcome.err PickError.notFound), db)
  | some d0 =>
    match drafts.makePickChecks d0 db userId oA, drafts.makePickChecks d0 db userId oB with
    | some eA, some eB => ((PickOutcome.err eA, PickOutcome.err eB), db)
    | some eA, none =>
      let rB := drafts.makePickCommit d0 userId oB now db
      ((PickOutcome.err eA, rB.1), rB.2)
    | none, some eB =>
      let rA := drafts.makePickCommit d0 userId oA now db
      ((rA.1, PickOutcome.err eB), rA.2)
    | none, none =>
      let rA := drafts.makePickCommit d0 userId oA now db
      let rB := drafts.makePickCommit d0 userId oB now rA.2
      ((rA.1, rB.1), rB.2)

/-! Supporting lemmas. -/

/-- Reading an in-range entry of a list without empty strings, the
JavaScript coercion is the identity. -/
theorem jsStringOrNull_getElem (l : List String) (hne : ∀ s ∈ l, s ≠ "")
    (i : Nat) (h : i < l.length) : jsStringOrNull l[i]? = l[i]? := by
  rw [List.getElem?_eq_getElem h]
  simp [jsStringOrNull, hne l[i] (List.getElem_mem h)]

/-- The module's round bookkeeping: `drafts.create` writes current_pick = 0
with current_round = 1, and a successful `makePick` writes
current_round = current_pick / n + 1 next to the new current_pick, so every
draft row the module produces satisfies this equation. -/
theorem makePick_round_equation (db : DB) (u o : String) (now : Int)
    (p : DraftPick) (db' : DB) (d' : Draft)
    (h : drafts.makePick db u o now = (PickOutcome.ok p, db'))
    (h' : db'.draft = some d') :
    d'.current_round = d'.current_pick / d'.draft_order.length + 1 := by
  unfold drafts.makePick at h
  cases hdb : db.draft with
  | none => simp [hdb] at h
  | some d =>
    simp only [hdb] at h
    cases hc : drafts.makePickChecks d db u o with
    | some e => simp [hc] at h
    | none =>
      simp only [hc] at h
      simp only [drafts.makePickCommit] at h
      split at h
      · simp at h
      · split at h <;>
        · simp only [Prod.mk.injEq] at h
          obtain ⟨-, rfl⟩ := h
          simp [drafts.complete, drafts.setPickDeadline, hdb] at h'
          subst h'
          rfl

/-- C1: for every draft row satisfying the module's bookkeeping equations
(current_round = current_pick / n + 1 and total_picks = total_rounds * n,
both established at creation and preserved by every pick) whose participant
ids are nonempty strings, `drafts.getCurrentPicker` agrees with the claim's
turn formula, and it returns none exactly when the draft is not in_progress
or current_pick has reached total_picks. -/
theorem C1_getCurrentPicker_matches_spec (d : Draft)
    (hr : d.current_round = d.current_pick / d.draft_order.length + 1)
    (htp : d.total_picks = d.total_rounds * d.draft_order.length)
    (hne : ∀ s ∈ d.draft_order, s ≠ "") :
    drafts.getCurrentPicker d = whoseTurnSpec d ∧
      (drafts.getCurrentPicker d = none ↔
        (d.status ≠ DraftStatus.in_progress ∨ d.current_pick ≥ d.total_picks)) := by
  by_cases hguard : d.status ≠ DraftStatus.in_progress ∨ d.current_pick ≥ d.total_picks
  · constructor
    · unfold drafts.getCurrentPicker whoseTurnSpec
      rw [if_pos hguard, if_pos hguard]
    · unfold drafts.getCurrentPicker
      rw [if_pos hguard]
      simp [hguard]
  · have hlt : d.current_pick < d.total_picks := by
      push_neg at hguard
      exact hguard.2
    have hn : 0 < d.draft_order.length := by
      rcases Nat.eq_zero_or_pos d.draft_order.length with h0 | h
      · rw [h0, Nat.mul_zero] at htp
        omega
      · exact h
    have hmain : drafts.getCurrentPicker d = whoseTurnSpec d := by
      unfold drafts.getCurrentPicker whoseTurnSpec
      rw [if_neg hguard, if_neg hguard]
      simp only [hr]
      by_cases hodd :
          (d.current_pick / d.draft_order.length + 1) % 2 = 1
      · rw [if_pos hodd, if_pos hodd]
        exact jsStringOrNull_getElem _ hne _ (Nat.mod_lt _ hn)
      · rw [if_neg hodd, if_neg hodd]
        refine jsStringOrNull_getElem _ hne _ ?_
        have := Nat.mod_lt d.current_pick hn
        omega
    refine ⟨hmain, ?_⟩
    have hsome : ∃ s, drafts.getCurrentPicker d = some s := by
      rw [hmain]
      unfold whoseTurnSpec
      rw [if_neg hguard]
      by_cases hodd :
          (d.current_pick / d.draft_order.length + 1) % 2 = 1
      · rw [if_pos hodd]
        exact ⟨_, List.getElem?_eq_getElem (Nat.mod_lt _ hn)⟩
      · rw [if_neg hodd]
        refine ⟨_, List.getElem?_eq_getElem ?_⟩
        have := Nat.mod_lt d.current_pick hn
        omega
    obtain ⟨s, hs⟩ := hsome
    rw [hs]
    simp [hguard]

/-- Witness for C1 at the concrete draft of the spec's scenario (order
[A, B, C], two rounds, pick 3 of 6: round 2 starts and C, the last picker
of round 1, picks again). -/
theorem C1_witness :
    drafts.getCurrentPicker
        { status := DraftStatus.in_progress, current_pick := 3, current_round := 2,
          total_rounds := 2, total_picks := 6, draft_order := ["A", "B", "C"],
          started_at := some 0, completed_at := none } =
      whoseTurnSpec
        { status := DraftStatus.in_progress, current_pick := 3, current_round := 2,
          total_rounds := 2, total_picks := 6, draft_order := ["A", "B", "C"],
          started_at := some 0, completed_at := none } :=
  (C1_getCurrentPicker_matches_spec _ (by decide) (by decide) (by decide)).1

/-- C10: `generateSnakeOrder` only rearranges its input: for every user
list, every rounds value and every behaviour of the random comparator, the
result is a permutation of the input (same length, same multiset, nothing
added, dropped or duplicated). -/
theorem C10_generateSnakeOrder_perm (userIds : List String) (rounds : Nat)
    (cmp : String → String → Bool) :
    (draftHelpers.generateSnakeOrder userIds rounds cmp).Perm userIds ∧
      (draftHelpers.generateSnakeOrder userIds rounds cmp).length = userIds.length := by
  have h := List.mergeSort_perm userIds cmp
  exact ⟨h, h.length_eq⟩

/-- Unfolding of a passed validation phase: the draft is in_progress, the
actor is the current picker, and no pick of the draft uses the option id. -/
theorem makePickChecks_none_iff (d : Draft) (db : DB) (u o : String)
    (h : drafts.makePickChecks d db u o = none) :
    d.status = DraftStatus.in_progress ∧ drafts.getCurrentPicker d = some u ∧
      db.picks.any (fun p => p.option_id == o) = false := by
  unfold drafts.makePickChecks at h
  split at h
  · cases h
  · split at h
    · cases h
    · split at h
      · cases h
      · refine ⟨?_, ?_, ?_⟩ <;> simp_all

/-- A draft with a current picker is in_progress and has picks remaining. -/
theorem getCurrentPicker_some (d : Draft) (s : String)
    (h : drafts.getCurrentPicker d = some s) :
    d.status = DraftStatus.in_progress ∧ d.current_pick < d.total_picks := by
  unfold drafts.getCurrentPicker at h
  by_cases hg : d.status ≠ DraftStatus.in_progress ∨ d.current_pick ≥ d.total_picks
  · rw [if_pos hg] at h
    cases h
  · push_neg at hg
    exact ⟨hg.1, hg.2⟩

/-- C2: the failing input.  A two-participant, two-round draft in progress
at pick 2 whose first pick was already auto-skipped (its pick row carries
the reserved option id).  The claim needs skipPick to succeed here, because
the reserved id is supposed to be exempt from the uniqueness check; but the
uniqueness query of `makePick` matches any pick row with the same option id,
so the second skip is rejected as ResourceAlreadyTaken and current_pick
does not advance — even though the draft is in_progress and B is the
current picker. -/
theorem C2_second_skip_rejected :
    drafts.skipPick
        { draft := some
            { status := DraftStatus.in_progress, current_pick := 1, current_round := 1,
              total_rounds := 2, total_picks := 4, draft_order := ["A", "B"],
              started_at := some 0, completed_at := none },
          picks := [{ round := 1, pick_number := 1, user_id := "A", option_id := "skipped" }],
          timer := none, settings := none } 0 =
      (PickOutcome.err PickError.resourceAlreadyTaken,
        { draft := some
            { status := DraftStatus.in_progress, current_pick := 1, current_round := 1,
              total_rounds := 2, total_picks := 4, draft_order := ["A", "B"],
              started_at := some 0, completed_at := none },
          picks := [{ round := 1, pick_number := 1, user_id := "A", option_id := "skipped" }],
          timer := none, settings := none }) ∧
      drafts.getCurrentPicker
        { status := DraftStatus.in_progress, current_pick := 1, current_round := 1,
          total_rounds := 2, total_picks := 4, draft_order := ["A", "B"],
          started_at := some 0, completed_at := none } = some "B" := by
  constructor
  · rfl
  · rfl

/-- C4: counterexample to the claim's fourth check.  Every pick of this
draft carries the reserved option id, so no non-skip pick uses the
requested resource and the claim says the fourth validation passes and a
pick is created; the code's uniqueness query matches any pick row with the
option id and rejects the call as ResourceAlreadyTaken. -/
theorem C4_counterexample_skip_sentinel_blocks :
    drafts.makePick
        { draft := some
            { status := DraftStatus.in_progress, current_pick := 1, current_round := 1,
              total_rounds := 3, total_picks := 6, draft_order := ["A", "B"],
              started_at := some 0, completed_at := none },
          picks := [{ round := 1, pick_number := 1, user_id := "A", option_id := "skipped" }],
          timer := none, settings := none } "B" "skipped" 5 =
      (PickOutcome.err PickError.resourceAlreadyTaken,
        { draft := some
            { status := DraftStatus.in_progress, current_pick := 1, current_round := 1,
              total_rounds := 3, total_picks := 6, draft_order := ["A", "B"],
              started_at := some 0, completed_at := none },
          picks := [{ round := 1, pick_number := 1, user_id := "A", option_id := "skipped" }],
          timer := none, settings := none }) ∧
      ∀ p ∈ [({ round := 1, pick_number := 1, user_id := "A",
                option_id := "skipped" } : DraftPick)], p.option_id = "skipped" := by
  exact ⟨rfl, by decide⟩

/-- C4 (amended): `makePick` validates in this exact order — draft exists
(else NotFound), status in_progress (else InvalidState), actor is the
current picker (else NotYourTurn), option id unused by any existing pick of
the draft, the reserved skip sentinel included (else ResourceAlreadyTaken) —
and a pick is created only when every validation passes. -/
theorem C4_makePick_validation_order (db : DB) (u o : String) (now : Int) :
    (db.draft = none →
      drafts.makePick db u o now = (PickOutcome.err PickError.notFound, db)) ∧
    (∀ d, db.draft = some d → d.status ≠ DraftStatus.in_progress →
      drafts.makePick db u o now = (PickOutcome.err PickError.invalidState, db)) ∧
    (∀ d, db.draft = some d → d.status = DraftStatus.in_progress →
      drafts.getCurrentPicker d ≠ some u →
      drafts.makePick db u o now = (PickOutcome.err PickError.notYourTurn, db)) ∧
    (∀ d, db.draft = some d → d.status = DraftStatus.in_progress →
      drafts.getCurrentPicker d = some u → (∃ p ∈ db.picks, p.option_id = o) →
      drafts.makePick db u o now = (PickOutcome.err PickError.resourceAlreadyTaken, db)) ∧
    (∀ p db', drafts.makePick db u o now = (PickOutcome.ok p, db') →
      ∃ d, db.draft = some d ∧ d.status = DraftStatus.in_progress ∧
        drafts.getCurrentPicker d = some u ∧ ¬∃ q ∈ db.picks, q.option_id = o) := by
  refine ⟨?_, ?_, ?_, ?_, ?_⟩
  · intro h
    unfold drafts.makePick
    rw [h]
  · intro d hd hs
    simp [drafts.makePick, hd, drafts.makePickChecks, hs]
  · intro d hd hs hp
    simp [drafts.makePick, hd, drafts.makePickChecks, hs, hp]
  · intro d hd hs hp hex
    simp [drafts.makePick, hd, drafts.makePickChecks, hs, hp,
      List.any_eq_true, beq_iff_eq, hex]
  · intro p db' h
    unfold drafts.makePick at h
    cases hdb : db.draft with
    | none => simp [hdb] at h
    | some d =>
      simp only [hdb] at h
      cases hc : drafts.makePickChecks d db u o with
      | some e => simp [hc] at h
      | none =>
        obtain ⟨h1, h2, h3⟩ := makePickChecks_none_iff d db u o hc
        refine ⟨d, rfl, h1, h2, ?_⟩
        intro hex
        obtain ⟨q, hq, hqo⟩ := hex
        have hany : db.picks.any (fun p => p.option_id == o) = true := by
          simp only [List.any_eq_true, beq_iff_eq]
          exact ⟨q, hq, hqo⟩
        rw [hany] at h3
        cases h3

/-- Witness for C4 at a concrete input: the NotFound branch. -/
theorem C4_witness :
    drafts.makePick { draft := none, picks := [], timer := none, settings := none }
        "A" "X" 0 =
      (PickOutcome.err PickError.notFound,
        { draft := none, picks := [], timer := none, settings := none }) :=
  (C4_makePick_validation_order
      { draft := none, picks := [], timer := none, settings := none } "A" "X" 0).1 rfl

/-- C7: a `makePick` call that returns a typed error mutates nothing — the
returned state (draft row, picks and timer) is exactly the input state.
Every validation failure happens before the first write statement. -/
theorem C7_makePick_error_no_mutation (db : DB) (u o : String) (now : Int)
    (e : PickError) (db' : DB)
    (h : drafts.makePick db u o now = (PickOutcome.err e, db')) : db' = db := by
  unfold drafts.makePick at h
  cases hdb : db.draft with
  | none =>
    simp only [hdb] at h
    exact (Prod.mk.injEq _ _ _ _ ▸ h).2.symm
  | some d =>
    simp only [hdb] at h
    cases hc : drafts.makePickChecks d db u o with
    | some e2 =>
      simp only [hc] at h
      exact (Prod.mk.injEq _ _ _ _ ▸ h).2.symm
    | none =>
      simp only [hc] at h
      simp only [drafts.makePickCommit] at h
      split at h
      · simp at h
      · simp at h

/-- Witness for C7: a pick attempt on a pending draft errs with
InvalidState and returns the state unchanged. -/
theorem C7_witness :
    (drafts.makePick
        { draft := some
            { status := DraftStatus.pending, current_pick := 0, current_round := 1,
              total_rounds := 2, total_picks := 4, draft_order := ["A", "B"],
              started_at := none, completed_at := none },
          picks := [], timer := none, settings := none } "A" "X" 0).2 =
      { draft := some
          { status := DraftStatus.pending, current_pick := 0, current_round := 1,
            total_rounds := 2, total_picks := 4, draft_order := ["A", "B"],
            started_at := none, completed_at := none },
        picks := [], timer := none, settings := none } :=
  C7_makePick_error_no_mutation _ "A" "X" 0 PickError.invalidState _ rfl

/-- The full effect of a successful `makePick`: the validations passed, the
snapshot's pick row was appended, and the draft row advanced — completing
the draft (with completion timestamp) exactly when the new current_pick
reaches total_picks. -/
theorem makePick_ok_state (db : DB) (d : Draft) (u o : String) (now : Int)
    (p : DraftPick) (db' : DB)
    (hd : db.draft = some d)
    (h : drafts.makePick db u o now = (PickOutcome.ok p, db')) :
    d.status = DraftStatus.in_progress ∧
    drafts.getCurrentPicker d = some u ∧
    d.current_pick < d.total_picks ∧
    p = drafts.mkPick d u o ∧
    db'.picks = db.picks ++ [drafts.mkPick d u o] ∧
    db'.draft = some { d with
      current_pick := d.current_pick + 1,
      current_round := (d.current_pick + 1) / d.draft_order.length + 1,
      status :=
        if d.current_pick + 1 ≥ d.total_picks then DraftStatus.completed else d.status,
      completed_at :=
        if d.current_pick + 1 ≥ d.total_picks then some now else d.completed_at } := by
  unfold drafts.makePick at h
  simp only [hd] at h
  cases hc : drafts.makePickChecks d db u o with
  | some e => simp [hc] at h
  | none =>
    obtain ⟨h1, h2, -⟩ := makePickChecks_none_iff d db u o hc
    have hlt := (getCurrentPicker_some d u h2).2
    simp only [hc, drafts.makePickCommit] at h
    split at h
    · simp at h
    · by_cases hcomp : d.current_pick + 1 ≥ d.total_picks
      · rw [if_pos hcomp] at h
        simp only [Prod.mk.injEq, PickOutcome.ok.injEq] at h
        obtain ⟨hpick, hdb'⟩ := h
        subst hdb'
        refine ⟨h1, h2, hlt, hpick.symm, ?_, ?_⟩
        · simp [drafts.complete]
        · simp [drafts.complete, hd, hcomp]
      · rw [if_neg hcomp] at h
        simp only [Prod.mk.injEq, PickOutcome.ok.injEq] at h
        obtain ⟨hpick, hdb'⟩ := h
        subst hdb'
        refine ⟨h1, h2, hlt, hpick.symm, ?_, ?_⟩
        · simp [drafts.setPickDeadline]
        · simp [drafts.setPickDeadline, hd, hcomp]

/-- C5: on a draft row with total_picks = total_rounds × N (as written by
`drafts.create`), a pick attempt on a completed draft is rejected with
InvalidState, and a successful pick advances current_pick by one, never
past total_picks, leaving the draft completed — with its completion
timestamp set — exactly when the new current_pick equals total_picks
(equivalently total_rounds × N). -/
theorem C5_completion_boundary (db : DB) (d : Draft) (u o : String) (now : Int)
    (hd : db.draft = some d)
    (htp : d.total_picks = d.total_rounds * d.draft_order.length) :
    (d.status = DraftStatus.completed →
      drafts.makePick db u o now = (PickOutcome.err PickError.invalidState, db)) ∧
    (∀ p db' d', drafts.makePick db u o now = (PickOutcome.ok p, db') →
      db'.draft = some d' →
      d'.current_pick = d.current_pick + 1 ∧
      d'.current_pick ≤ d'.total_picks ∧
      (d'.status = DraftStatus.completed ↔ d'.current_pick = d'.total_picks) ∧
      (d'.current_pick = d.total_rounds * d.draft_order.length →
        d'.status = DraftStatus.completed ∧ d'.completed_at = some now)) := by
  constructor
  · intro hcompleted
    simp [drafts.makePick, hd, drafts.makePickChecks, hcompleted]
  · intro p db' d' h hd'
    obtain ⟨h1, -, hlt, -, -, hdraft⟩ := makePick_ok_state db d u o now p db' hd h
    rw [hd'] at hdraft
    have hde : d' = _ := Option.some.inj hdraft
    subst hde
    by_cases hcomp : d.current_pick + 1 ≥ d.total_picks
    · have heq : d.current_pick + 1 = d.total_picks := by omega
      refine ⟨rfl, ?_, ?_, ?_⟩
      · simp
        omega
      · simp [hcomp, heq]
      · intro _
        simp [hcomp]
    · have hne2 : d.current_pick + 1 ≠ d.total_picks := by omega
      refine ⟨rfl, ?_, ?_, ?_⟩
      · simp
        omega
      · simp [hcomp, h1, hne2]
      · intro hx
        rw [← htp] at hx
        have hx2 : d.current_pick + 1 = d.total_picks := hx
        exact absurd hx2 hne2

/-- Witness for C5: the final pick of a one-round, two-participant draft
leaves the draft completed with the completion timestamp set. -/
theorem C5_witness :
    ({ status := DraftStatus.completed, current_pick := 2, current_round := 2,
       total_rounds := 1, total_picks := 2, draft_order := ["A", "B"],
       started_at := some 0, completed_at := some 7 } : Draft).status =
        DraftStatus.completed ∧
    ({ status := DraftStatus.completed, current_pick := 2, current_round := 2,
       total_rounds := 1, total_picks := 2, draft_order := ["A", "B"],
       started_at := some 0, completed_at := some 7 } : Draft).completed_at =
        some 7 :=
  ((C5_completion_boundary
      { draft := some
          { status := DraftStatus.in_progress, current_pick := 1, current_round := 1,
            total_rounds := 1, total_picks := 2, draft_order := ["A", "B"],
            started_at := some 0, completed_at := none },
        picks := [{ round := 1, pick_number := 1, user_id := "A", option_id := "x" }],
        timer := none, settings := none }
      { status := DraftStatus.in_progress, current_pick := 1, current_round := 1,
        total_rounds := 1, total_picks := 2, draft_order := ["A", "B"],
        started_at := some 0, completed_at := none }
      "B" "y" 7 rfl (by decide)).2
    { round := 1, pick_number := 2, user_id := "B", option_id := "y" }
    { draft := some
        { status := DraftStatus.completed, current_pick := 2, current_round := 2,
          total_rounds := 1, total_picks := 2, draft_order := ["A", "B"],
          started_at := some 0, completed_at := some 7 },
      picks := [{ round := 1, pick_number := 1, user_id := "A", option_id := "x" },
                { round := 1, pick_number := 2, user_id := "B", option_id := "y" }],
      timer := none, settings := none }
    { status := DraftStatus.completed, current_pick := 2, current_round := 2,
      total_rounds := 1, total_picks := 2, draft_order := ["A", "B"],
      started_at := some 0, completed_at := some 7 }
    (by decide) rfl).2.2.2 (by decide)

/-- C3: counterexample to the snapshot-clearing conjunct.  An in_progress
draft whose deadline lies 100 seconds ahead is paused at t=1000 and resumed
at t=5000: the new deadline is exactly 5100 = resume time + 100 (the
restored-remaining conjunct holds), and paused_at is null, but
paused_remaining_seconds is 86400 — the schema default written back by the
REPLACE that set the new deadline — not cleared as the claim states. -/
theorem C3_counterexample_snapshot_not_cleared :
    (drafts.resume
        (drafts.pause
          { draft := some
              { status := DraftStatus.in_progress, current_pick := 0, current_round := 1,
                total_rounds := 1, total_picks := 2, draft_order := ["A", "B"],
                started_at := some 0, completed_at := none },
            picks := [],
            timer := some
              { current_pick_deadline := some 1100, last_reminded_at := none,
                paused_at := none, paused_remaining_seconds := none },
            settings := none } 1000) 5000).timer =
      some
        { current_pick_deadline := some 5100, last_reminded_at := none,
          paused_at := none, paused_remaining_seconds := some 86400 } ∧
      (some (86400 : Int) ≠ (none : Option Int)) := by
  exact ⟨rfl, by decide⟩

/-- C3 (amended): pausing an in_progress draft whose deadline lies T > 0
seconds in the future (T = deadline − pause time) and resuming after any
delay yields a deadline exactly T seconds after the resume time — not a
fresh full allotment — and returns the draft row to in_progress; resuming
clears paused_at, but paused_remaining_seconds is left at the timer
table's default 86400 (rewritten by the deadline REPLACE) rather than
cleared. -/
theorem C3_pause_resume_restores_remaining (db : DB) (d : Draft) (t : DraftTimer)
    (dl now1 now2 : Int)
    (hd : db.draft = some d)
    (hs : d.status = DraftStatus.in_progress)
    (ht : db.timer = some t)
    (hdl : t.current_pick_deadline = some dl)
    (hpos : 0 < dl)
    (hfuture : now1 < dl) :
    (drafts.resume (drafts.pause db now1) now2).timer =
      some
        { current_pick_deadline := some (now2 + (dl - now1)),
          last_reminded_at := none, paused_at := none,
          paused_remaining_seconds := some 86400 } ∧
    (drafts.resume (drafts.pause db now1) now2).draft = db.draft := by
  have hmax : max 0 (dl - now1) = dl - now1 := by omega
  have hpause : drafts.pause db now1 =
      { draft := some { d with status := DraftStatus.paused },
        picks := db.picks,
        timer := some
          { current_pick_deadline := none, last_reminded_at := none,
            paused_at := some now1, paused_remaining_seconds := some (dl - now1) },
        settings := db.settings } := by
    unfold drafts.pause
    simp only [hd, Option.map_some, ht ]
    rw [hdl]
    have htruthy : truthyInt (some dl) = true := by
      simp [truthyInt]
      omega
    rw [if_pos htruthy]
    simp [draftTimers.update, hdl, hmax]
  rw [hpause]
  unfold drafts.resume
  have htr : truthyInt (some (dl - now1)) = true := by
    simp [truthyInt]
    omega
  simp only [htr, if_pos]
  constructor
  · simp [draftTimers.update, drafts.setPickDeadline]
  · simp [draftTimers.update, drafts.setPickDeadline, hd, hs]
    cases d
    simp_all

/-- Witness for C3 (amended) at the counterexample's numbers: deadline 1100,
pause at 1000, resume at 5000. -/
theorem C3_witness :
    (drafts.resume
        (drafts.pause
          { draft := some
              { status := DraftStatus.in_progress, current_pick := 0, current_round := 1,
                total_rounds := 1, total_picks := 2, draft_order := ["A", "B"],
                started_at := some 0, completed_at := none },
            picks := [],
            timer := some
              { current_pick_deadline := some 1100, last_reminded_at := none,
                paused_at := none, paused_remaining_seconds := none },
            settings := none } 1000) 5000).timer =
      some
        { current_pick_deadline := some (5000 + (1100 - 1000)),
          last_reminded_at := none, paused_at := none,
          paused_remaining_seconds := some 86400 } :=
  (C3_pause_resume_restores_remaining _
      { status := DraftStatus.in_progress, current_pick := 0, current_round := 1,
        total_rounds := 1, total_picks := 2, draft_order := ["A", "B"],
        started_at := some 0, completed_at := none }
      { current_pick_deadline := some 1100, last_reminded_at := none,
        paused_at := none, paused_remaining_seconds := none }
      1100 1000 5000 rfl rfl rfl rfl (by decide) (by decide)).1

/-- C6: counterexample to the deadline conjunct.  A pending two-participant
draft whose settings row carries pick_time_seconds = 3600 is started at
now = 0: the guards pass, but the deadline written is 86400 — the module's
hard-coded 24 hours — not now + pick_time_seconds = 3600 as the claim
states. -/
theorem C6_counterexample_deadline_ignores_settings :
    (startDraft
        { draft := some
            { status := DraftStatus.pending, current_pick := 0, current_round := 1,
              total_rounds := 2, total_picks := 4, draft_order := ["A", "B"],
              started_at := none, completed_at := none },
          picks := [], timer := none,
          settings := some
            { pick_time_seconds := 3600, reminder_minutes := 720,
              enable_auto_skip := 1, auto_skip_after_seconds := 86400 } } 0).1 = none ∧
    (startDraft
        { draft := some
            { status := DraftStatus.pending, current_pick := 0, current_round := 1,
              total_rounds := 2, total_picks := 4, draft_order := ["A", "B"],
              started_at := none, completed_at := none },
          picks := [], timer := none,
          settings := some
            { pick_time_seconds := 3600, reminder_minutes := 720,
              enable_auto_skip := 1, auto_skip_after_seconds := 86400 } } 0).2.timer =
      some
        { current_pick_deadline := some 86400, last_reminded_at := none,
          paused_at := none, paused_remaining_seconds := some 86400 } ∧
    (86400 : Int) ≠ 0 + 3600 := by
  exact ⟨rfl, rfl, by decide⟩

/-- C6 (amended): starting a draft requires status pending and at least two
participants (guards modelled from the spec, the start endpoint being
absent from the provided sources; the at-least-2 rule is also enforced at
creation by the create route), and on success sets status in_progress,
stamps started_at, and sets the deadline to now + 86400 — the hard-coded
default pick time — regardless of the settings row's pick_time_seconds. -/
theorem C6_startDraft_guards_and_deadline (db : DB) (d : Draft) (now : Int)
    (hd : db.draft = some d) :
    (d.status ≠ DraftStatus.pending → startDraft db now = (some PickError.invalidState, db)) ∧
    (d.status = DraftStatus.pending → d.draft_order.length < 2 →
      startDraft db now = (some PickError.invalidState, db)) ∧
    (d.status = DraftStatus.pending → 2 ≤ d.draft_order.length →
      startDraft db now =
        (none,
          { draft := some
              { d with status := DraftStatus.in_progress, started_at := some now },
            picks := db.picks,
            timer := some
              { current_pick_deadline := some (now + 86400), last_reminded_at := none,
                paused_at := none, paused_remaining_seconds := some 86400 },
            settings := db.settings })) := by
  refine ⟨?_, ?_, ?_⟩
  · intro hns
    simp [startDraft, hd, hns]
  · intro hp hlen
    simp [startDraft, hd, hp, hlen]
  · intro hp hlen
    have hnlt : ¬d.draft_order.length < 2 := by omega
    simp [startDraft, hd, hp, hnlt, drafts.start, drafts.setPickDeadline]

/-- Witness for C6 (amended): a pending draft with two participants starts
successfully and the deadline becomes now + 86400. -/
theorem C6_witness :
    startDraft
        { draft := some
            { status := DraftStatus.pending, current_pick := 0, current_round := 1,
              total_rounds := 1, total_picks := 2, draft_order := ["A", "B"],
              started_at := none, completed_at := none },
          picks := [], timer := none, settings := none } 50 =
      (none,
        { draft := some
            { status := DraftStatus.in_progress, current_pick := 0, current_round := 1,
              total_rounds := 1, total_picks := 2, draft_order := ["A", "B"],
              started_at := some 50, completed_at := none },
          picks := [],
          timer := some
            { current_pick_deadline := some (50 + 86400), last_reminded_at := none,
              paused_at := none, paused_remaining_seconds := some 86400 },
          settings := none }) :=
  (C6_startDraft_guards_and_deadline
      { draft := some
          { status := DraftStatus.pending, current_pick := 0, current_round := 1,
            total_rounds := 1, total_picks := 2, draft_order := ["A", "B"],
            started_at := none, completed_at := none },
        picks := [], timer := none, settings := none }
      { status := DraftStatus.pending, current_pick := 0, current_round := 1,
        total_rounds := 1, total_picks := 2, draft_order := ["A", "B"],
        started_at := none, completed_at := none }
      50 rfl).2.2 rfl (by decide)

/-- A draft row as the module maintains it while in progress at overall
pick index p (0-based): current_round derived as p / n + 1 and total_picks
as rounds × n, exactly the values `drafts.create` and `drafts.makePick`
persist. -/
def draftAtPick (order : List String) (rounds p : Nat) : Draft :=
  { status := DraftStatus.in_progress
    current_pick := p
    current_round := p / order.length + 1
    total_rounds := rounds
    total_picks := rounds * order.length
    draft_order := order
    started_at := some 0
    completed_at := none }

/-- C8: in a snake draft with at least two participants, the last pick of
round k (0-based overall index k·n − 1) and the first pick of round k + 1
(index k·n) are resolved to the same participant by the turn resolver, for
every 1 ≤ k < R. -/
theorem C8_round_boundary_same_picker (order : List String) (R k : Nat)
    (hk1 : 1 ≤ k) (hkR : k < R) (hN : 2 ≤ order.length) :
    drafts.getCurrentPicker (draftAtPick order R (k * order.length - 1)) =
      drafts.getCurrentPicker (draftAtPick order R (k * order.length)) := by
  obtain ⟨m, rfl⟩ := Nat.exists_eq_add_of_le hk1
  set n := order.length with hn_def
  have hn : 0 < n := by omega
  have hkn : (1 + m) * n = n + m * n := by ring
  have hsub : (1 + m) * n - 1 = (n - 1) + m * n := by
    rw [hkn]
    omega
  have hL : ((1 + m) * n - 1) / n + 1 = 1 + m := by
    rw [hsub, Nat.add_mul_div_right _ _ hn, Nat.div_eq_of_lt (by omega)]
    omega
  have hLm : ((1 + m) * n - 1) % n = n - 1 := by
    rw [hsub, Nat.add_mul_mod_self_right, Nat.mod_eq_of_lt (by omega)]
  have hR2 : (1 + m) * n / n + 1 = (1 + m) + 1 := by
    rw [Nat.mul_div_cancel _ hn]
  have hRm : (1 + m) * n % n = 0 := by
    simp [Nat.mul_mod_left]
  have hglt : (1 + m) * n - 1 < R * n := by
    have h1 : (1 + m) * n < R * n := Nat.mul_lt_mul_of_lt_of_le hkR (le_refl n) hn
    omega
  have hglt2 : (1 + m) * n < R * n := Nat.mul_lt_mul_of_lt_of_le hkR (le_refl n) hn
  unfold drafts.getCurrentPicker draftAtPick
  simp only [← hn_def]
  have hguardL :
      ¬(DraftStatus.in_progress ≠ DraftStatus.in_progress ∨ (1 + m) * n - 1 ≥ R * n) := by
    simp
    omega
  have hguardR :
      ¬(DraftStatus.in_progress ≠ DraftStatus.in_progress ∨ (1 + m) * n ≥ R * n) := by
    simp
    omega
  rw [if_neg hguardL, if_neg hguardR]
  simp only [hL, hLm, hR2, hRm]
  rcases Nat.mod_two_eq_zero_or_one (1 + m) with hp | hp
  · have hcL : ¬((1 + m) % 2 = 1) := by omega
    have hcR : (1 + m + 1) % 2 = 1 := by omega
    rw [if_neg hcL, if_pos hcR]
    have hz : n - 1 - (n - 1) = 0 := by omega
    rw [hz]
  · have hcR : ¬((1 + m + 1) % 2 = 1) := by omega
    rw [if_pos hp, if_neg hcR]
    have hz2 : n - 1 - 0 = n - 1 := by omega
    rw [hz2]

/-- Witness for C8: with order [A, B, C] and two rounds, pick 3 (the last
of round 1) and pick 4 (the first of round 2) both fall to C. -/
theorem C8_witness :
    drafts.getCurrentPicker (draftAtPick ["A", "B", "C"] 2 2) =
      drafts.getCurrentPicker (draftAtPick ["A", "B", "C"] 2 3) :=
  C8_round_boundary_same_picker ["A", "B", "C"] 2 1 (by decide) (by decide) (by decide)

/-- C9: counterexample to the claimed atomicity mechanism.  Under the
interleaving in which both pick attempts for the same turn validate
against the same state, the code — whose draft update is an unconditional
`UPDATE ... WHERE id = ?`, not conditioned on the previously read
current_pick, with no transaction around the insert and the update — lets
the first attempt succeed while the second attempt's insert hits the
`UNIQUE(draft_id, round, pick_number)` index and aborts with a thrown
database exception (`PickOutcome.thrown`), which is not one of the typed
errors the claim requires for the loser. -/
theorem C9_counterexample_race_untyped_loser :
    racedMakePick
        { draft := some
            { status := DraftStatus.in_progress, current_pick := 0, current_round := 1,
              total_rounds := 2, total_picks := 4, draft_order := ["A", "B"],
              started_at := some 0, completed_at := none },
          picks := [],
          timer := some
            { current_pick_deadline := some 86400, last_reminded_at := none,
              paused_at := none, paused_remaining_seconds := none },
          settings := none } "A" "x" "y" 10 =
      ((PickOutcome.ok { round := 1, pick_number := 1, user_id := "A", option_id := "x" },
        PickOutcome.thrown),
        { draft := some
            { status := DraftStatus.in_progress, current_pick := 1, current_round := 1,
              total_rounds := 2, total_picks := 4, draft_order := ["A", "B"],
              started_at := some 0, completed_at := none },
          picks := [{ round := 1, pick_number := 1, user_id := "A", option_id := "x" }],
          timer := some
            { current_pick_deadline := some 86410, last_reminded_at := none,
              paused_at := none, paused_remaining_seconds := some 86400 },
          settings := none }) := by
  rfl

/-- C9 (amended): no compare-and-swap on current_pick and no transaction
protects the advance; when two pick attempts for the same turn both pass
validation against the same state (the interleaving `racedMakePick`
denotes), the first commit wins and the second commit's insert is rejected
by the `UNIQUE(draft_id, round, pick_number)` index — the loser's outcome
is a thrown database exception rather than a typed error — and exactly the
winner's pick row is added, so no two pick rows share a pick_number. -/
theorem C9_race_resolved_by_unique_index (db : DB) (d : Draft)
    (u oA oB : String) (now : Int)
    (hd : db.draft = some d)
    (hA : drafts.makePickChecks d db u oA = none)
    (hB : drafts.makePickChecks d db u oB = none)
    (hfresh : db.picks.any
        (fun q => q.round == d.current_round && q.pick_number == d.current_pick + 1)
      = false) :
    racedMakePick db u oA oB now =
      ((PickOutcome.ok (drafts.mkPick d u oA), PickOutcome.thrown),
        (drafts.makePickCommit d u oA now db).2) ∧
    (racedMakePick db u oA oB now).2.picks = db.picks ++ [drafts.mkPick d u oA] := by
  have hcond : (db.picks.any fun q =>
      q.round == (drafts.mkPick d u oA).round &&
        q.pick_number == (drafts.mkPick d u oA).pick_number) = false := by
    simp only [drafts.mkPick]
    exact hfresh
  have h1 : (drafts.makePickCommit d u oA now db).1 =
      PickOutcome.ok (drafts.mkPick d u oA) := by
    unfold drafts.makePickCommit
    rw [if_neg (by rw [hcond]; simp)]
  have hpicksA : (drafts.makePickCommit d u oA now db).2.picks =
      db.picks ++ [drafts.mkPick d u oA] := by
    unfold drafts.makePickCommit
    rw [if_neg (by rw [hcond]; simp)]
    by_cases hc : d.current_pick + 1 >= d.total_picks
    . simp [hc, drafts.complete]
    . simp [hc, drafts.setPickDeadline]
  have hcommitB : drafts.makePickCommit d u oB now ((drafts.makePickCommit d u oA now db).2) =
      (PickOutcome.thrown, (drafts.makePickCommit d u oA now db).2) := by
    generalize hg : (drafts.makePickCommit d u oA now db).2 = dbA at hpicksA
    unfold drafts.makePickCommit
    rw [if_pos ?_]
    rw [hpicksA]
    simp [drafts.mkPick, List.any_append]
  have hmain : racedMakePick db u oA oB now =
      ((PickOutcome.ok (drafts.mkPick d u oA), PickOutcome.thrown),
        (drafts.makePickCommit d u oA now db).2) := by
    unfold racedMakePick
    simp only [hd, hA, hB]
    rw [hcommitB]
    rw [h1]
  exact ⟨hmain, by rw [hmain]; exact hpicksA⟩

/-- Witness for C9 (amended): a raced pair of attempts for B's turn at pick
3 of a two-round draft; the winner's pick is recorded once and the loser
aborts on the unique index. -/
theorem C9_witness :
    racedMakePick
        { draft := some
            { status := DraftStatus.in_progress, current_pick := 2, current_round := 2,
              total_rounds := 2, total_picks := 4, draft_order := ["A", "B"],
              started_at := some 0, completed_at := none },
          picks := [{ round := 1, pick_number := 1, user_id := "A", option_id := "p" },
                    { round := 1, pick_number := 2, user_id := "B", option_id := "q" }],
          timer := none, settings := none } "B" "r" "s" 99 =
      ((PickOutcome.ok { round := 2, pick_number := 3, user_id := "B", option_id := "r" },
        PickOutcome.thrown),
        { draft := some
            { status := DraftStatus.in_progress, current_pick := 3, current_round := 2,
              total_rounds := 2, total_picks := 4, draft_order := ["A", "B"],
              started_at := some 0, completed_at := none },
          picks := [{ round := 1, pick_number := 1, user_id := "A", option_id := "p" },
                    { round := 1, pick_number := 2, user_id := "B", option_id := "q" },
                    { round := 2, pick_number := 3, user_id := "B", option_id := "r" }],
          timer := some
            { current_pick_deadline := some 86499, last_reminded_at := none,
              paused_at := none, paused_remaining_seconds := some 86400 },
          settings := none }) :=
  (C9_race_resolved_by_unique_index
      { draft := some
          { status := DraftStatus.in_progress, current_pick := 2, current_round := 2,
            total_rounds := 2, total_picks := 4, draft_order := ["A", "B"],
            started_at := some 0, completed_at := none },
        picks := [{ round := 1, pick_number := 1, user_id := "A", option_id := "p" },
                  { round := 1, pick_number := 2, user_id := "B", option_id := "q" }],
        timer := none, settings := none }
      { status := DraftStatus.in_progress, current_pick := 2, current_round := 2,
        total_rounds := 2, total_picks := 4, draft_order := ["A", "B"],
        started_at := some 0, completed_at := none }
      "B" "r" "s" 99 rfl rfl rfl rfl).1
